import Mathlib

/-
Shallow embedding of the Pulsar messaging connector (trigger/subscriber,
connection manager and publish activity) and proofs about its consume loop,
acknowledgment policy, connection management and configuration handling.

External collaborators (the pulsar client library, encoding/json, the flogo
host runtime) are passed in as parameters; everything else is translated
directly from the Go source.
-/

namespace PulsarContrib

/-- Go interface values as they appear in handler result attributes and
decoded JSON payloads (a shallow model of Go's `interface` dynamic values). -/
inductive GoVal where
  | vNull
  | vBool (b : Bool)
  | vStr (s : String)
  | vNum (n : Int)
  deriving DecidableEq, Repr

/-- An inbound pulsar message as seen by the trigger: payload bytes (modelled
as a string), string properties, topic, serialized message id (byte list,
absent when `msg.ID()` is nil) and redelivery count. -/
structure Msg where
  payload : String
  properties : List (String × String)
  topic : String
  msgId : Option (List Nat)
  redeliveryCount : Nat
  deriving DecidableEq, Repr

/-- The trigger Output record handed to the downstream flogo handler. -/
structure Output where
  payload : GoVal
  properties : List (String × String)
  topic : String
  redeliveryCount : Nat
  msgid : String
  deriving DecidableEq, Repr

/-- Lower-case hex digit, as produced by Go's fmt %x verb. -/
def hexDigitChar (n : Nat) : Char :=
  if n < 10 then Char.ofNat (48 + n) else Char.ofNat (87 + n)

/-- Two-digit lower-case hex rendering of one byte. -/
def hexByte (b : Nat) : String :=
  String.mk [hexDigitChar (b / 16 % 16), hexDigitChar (b % 16)]

/-- Hex rendering of a byte list: fmt.Sprintf with the %x verb on a []byte. -/
def hexBytes (bs : List Nat) : String :=
  String.join (bs.map hexByte)

/-- Outcome of per-message processing: consumer.Ack or consumer.Nack. -/
inductive AckOutcome where
  | ack
  | nack
  deriving DecidableEq, Repr

/-- The reserved result attribute whose boolean true value requests a
negative acknowledgment (note the leading space, as in the source). -/
def nackAttrKey : String := " _nack"

/-- External collaborators used by Handler.handleMessage: the configured
format setting (handler.Settings()["format"]), the stdlib JSON decoder
(json.Unmarshal, none on parse error), and the downstream flogo handler
(handler.handler.Handle, returning result attributes or an error). -/
structure HandlerEnv where
  format : Option String
  jsonUnmarshal : String → Option GoVal
  handle : Output → Except String (List (String × GoVal))

/-- Payload decoding step of Handler.handleMessage: when the handler's
format setting is the string JSON, parse the payload with json.Unmarshal
(none on a parse error); otherwise pass the payload through as a string. -/
def decodePayload (env : HandlerEnv) (msg : Msg) : Option GoVal :=
  if env.format = some "JSON" then env.jsonUnmarshal msg.payload
  else some (GoVal.vStr msg.payload)

/-- Output-record assembly of Handler.handleMessage: decoded payload,
message properties, topic, redelivery count, and the message id rendered
as the hex string of its serialized bytes (empty when msg.ID() is nil). -/
def buildOutput (msg : Msg) (pv : GoVal) : Output :=
  { payload := pv
    properties := msg.properties
    topic := msg.topic
    redeliveryCount := msg.redeliveryCount
    msgid :=
      match msg.msgId with
      | some bs => hexBytes bs
      | none => "" }

/-- Acknowledgment resolution of Handler.handleMessage: a handler error
nacks; a success acks unless the result attributes hold the reserved
" _nack" attribute with the boolean value true. -/
def resolveAck (res : Except String (List (String × GoVal))) : AckOutcome :=
  match res with
  | Except.ok attrs =>
      if attrs.lookup nackAttrKey = some (GoVal.vBool true) then AckOutcome.nack
      else AckOutcome.ack
  | Except.error _ => AckOutcome.nack

/-- Handler.handleMessage from trigger.go: decode the payload (a JSON parse
error nacks immediately without invoking the handler), assemble the Output
record, invoke the downstream handler and resolve the acknowledgment.
The first component records the Output the downstream handler was invoked
with (none when it was never invoked). -/
def handleMessage (env : HandlerEnv) (msg : Msg) : Option Output × AckOutcome :=
  match decodePayload env msg with
  | none => (none, AckOutcome.nack)
  | some pv =>
      let out : Output := buildOutput msg pv
      (some out, resolveAck (env.handle out))

/-- Observable events of a consume loop run, indexed by message number:
a message received from the consumer channel, a dispatch of the downstream
handler, and the ack or nack issued to the consumer. -/
inductive Ev where
  | pull (n : Nat)
  | dispatch (n : Nat)
  | ackOf (n : Nat)
  | nackOf (n : Nat)
  deriving DecidableEq, Repr

/-- Message number an event refers to. -/
def Ev.tag : Ev → Nat
  | Ev.pull n => n
  | Ev.dispatch n => n
  | Ev.ackOf n => n
  | Ev.nackOf n => n

/-- Events produced by one inline handleMessage call for message number n:
a decode failure nacks without dispatching; otherwise the handler is
dispatched and the resolved ack or nack follows. -/
def msgEvents (env : HandlerEnv) (n : Nat) (msg : Msg) : List Ev :=
  match handleMessage env msg with
  | (none, _) => [Ev.nackOf n]
  | (some _, AckOutcome.ack) => [Ev.dispatch n, Ev.ackOf n]
  | (some _, AckOutcome.nack) => [Ev.dispatch n, Ev.nackOf n]

/-- Sync-mode consume loop over a finite prefix of delivered messages,
numbering them from k: each iteration receives one message from the channel
and runs handleMessage inline (blocking the loop) before the next receive. -/
def syncConsumeFrom (env : HandlerEnv) (k : Nat) : List Msg → List Ev
  | [] => []
  | m :: ms => (Ev.pull k :: msgEvents env k m) ++ syncConsumeFrom env (k + 1) ms

/-- Sync-mode consume loop trace with messages numbered from 0. -/
def syncConsume (env : HandlerEnv) (msgs : List Msg) : List Ev :=
  syncConsumeFrom env 0 msgs

/-- Program counter of the consume-loop goroutine in Async mode, one point
per statement touching shared state: at the select; about to wg.Add(1);
about to currentMsgCount++; about to spawn the handleMessage goroutine;
at the currentMsgCount >= maxMsgCount test; blocked in wg.Wait();
about to reset currentMsgCount to 0. -/
inductive LoopPc where
  | select
  | add
  | inc
  | spawn
  | check
  | wait
  | reset
  deriving DecidableEq, Repr

/-- Program counter of one dispatched handleMessage goroutine: still
running its body (the deferred function ends with wg.Done() first and the
currentMsgCount decrement second), or past wg.Done() with the decrement
still pending. -/
inductive TaskPc where
  | running
  | afterDone
  deriving DecidableEq, Repr

/-- Shared state of one Async-mode worker: the loop goroutine's pc, the
currentMsgCount field (an int, shared without synchronization), the
sync.WaitGroup counter, the dispatched handler goroutines, and how many
messages have been received from the consumer channel. -/
structure AsyncState where
  loopPc : LoopPc
  count : Int
  wgCount : Nat
  tasks : List TaskPc
  pulled : Nat
  deriving DecidableEq, Repr

/-- Interleaving small-step semantics of the Async branch of
Handler.consume together with its handleMessage goroutines, one transition
per Go statement on shared state.  m is handler.maxMsgCount.  taskDone
covers finishing the handler body (its ack or nack included) and the
wg.Done() call; taskDec is the deferred currentMsgCount decrement, which
the source places after wg.Done(). -/
inductive AsyncStep (m : Nat) : AsyncState → AsyncState → Prop where
  | pull (c : Int) (w : Nat) (ts : List TaskPc) (p : Nat) :
      AsyncStep m ⟨LoopPc.select, c, w, ts, p⟩ ⟨LoopPc.add, c, w, ts, p + 1⟩
  | wgAdd (c : Int) (w : Nat) (ts : List TaskPc) (p : Nat) :
      AsyncStep m ⟨LoopPc.add, c, w, ts, p⟩ ⟨LoopPc.inc, c, w + 1, ts, p⟩
  | incCount (c : Int) (w : Nat) (ts : List TaskPc) (p : Nat) :
      AsyncStep m ⟨LoopPc.inc, c, w, ts, p⟩ ⟨LoopPc.spawn, c + 1, w, ts, p⟩
  | spawnTask (c : Int) (w : Nat) (ts : List TaskPc) (p : Nat) :
      AsyncStep m ⟨LoopPc.spawn, c, w, ts, p⟩
        ⟨LoopPc.check, c, w, TaskPc.running :: ts, p⟩
  | checkHigh (c : Int) (w : Nat) (ts : List TaskPc) (p : Nat) :
      (m : Int) ≤ c →
      AsyncStep m ⟨LoopPc.check, c, w, ts, p⟩ ⟨LoopPc.wait, c, w, ts, p⟩
  | checkLow (c : Int) (w : Nat) (ts : List TaskPc) (p : Nat) :
      c < (m : Int) →
      AsyncStep m ⟨LoopPc.check, c, w, ts, p⟩ ⟨LoopPc.select, c, w, ts, p⟩
  | wgWait (c : Int) (ts : List TaskPc) (p : Nat) :
      AsyncStep m ⟨LoopPc.wait, c, 0, ts, p⟩ ⟨LoopPc.reset, c, 0, ts, p⟩
  | resetCount (c : Int) (w : Nat) (ts : List TaskPc) (p : Nat) :
      AsyncStep m ⟨LoopPc.reset, c, w, ts, p⟩ ⟨LoopPc.select, 0, w, ts, p⟩
  | taskDone (pc : LoopPc) (c : Int) (w : Nat) (ts1 ts2 : List TaskPc) (p : Nat) :
      AsyncStep m ⟨pc, c, w + 1, ts1 ++ TaskPc.running :: ts2, p⟩
        ⟨pc, c, w, ts1 ++ TaskPc.afterDone :: ts2, p⟩
  | taskDec (pc : LoopPc) (c : Int) (w : Nat) (ts1 ts2 : List TaskPc) (p : Nat) :
      AsyncStep m ⟨pc, c, w, ts1 ++ TaskPc.afterDone :: ts2, p⟩
        ⟨pc, c - 1, w, ts1 ++ ts2, p⟩

/-- Reachability in the Async worker semantics. -/
def AsyncReach (m : Nat) : AsyncState → AsyncState → Prop :=
  Relation.ReflTransGen (AsyncStep m)

/-- Initial state of an Async worker: loop at the select, counter 0,
wait group 0, no dispatched handlers, nothing pulled. -/
def asyncInit : AsyncState := ⟨LoopPc.select, 0, 0, [], 0⟩

/-- Number of handler goroutines currently running their body, i.e.
messages currently dispatched for concurrent handling. -/
def inFlight (s : AsyncState) : Nat := s.tasks.count TaskPc.running

/-- The fixed backoff of the consumer-creation retry loop, in seconds. -/
def retryBackoffSeconds : Nat := 60

/-- State of the consumer-creation retry loop at the top of
Handler.consume: the consumer once obtained, attempts made so far, and
total seconds spent in time.Sleep between attempts. -/
structure ConnectingState where
  consumer : Option Nat
  attempts : Nat
  sleptSeconds : Nat
  deriving DecidableEq, Repr

/-- One iteration of the retry loop: while no consumer exists, call
connMgr.GetSubscriber; on error, log and sleep 60 seconds; on success,
store the consumer (which ends the loop). -/
def connectAttempt (res : Except String Nat) (s : ConnectingState) : ConnectingState :=
  if s.consumer.isSome then s
  else
    match res with
    | Except.ok c =>
        { consumer := some c, attempts := s.attempts + 1, sleptSeconds := s.sleptSeconds }
    | Except.error _ =>
        { consumer := none, attempts := s.attempts + 1
          sleptSeconds := s.sleptSeconds + retryBackoffSeconds }

/-- The retry loop after k iterations, where results i is what
GetSubscriber returned on attempt i. -/
def connectRun (results : Nat → Except String Nat) : Nat → ConnectingState
  | 0 => { consumer := none, attempts := 0, sleptSeconds := 0 }
  | k + 1 => connectAttempt (results k) (connectRun results k)

/-- Phase of a worker goroutine with respect to the done channel:
in the consumer-creation retry loop (no select yet), blocked at the
select on the message channel and done channel, inline in a sync-mode
handleMessage call, in the 1-second sleep of the closed-channel branch,
or returned. -/
inductive WorkerPhase where
  | connecting
  | atSelect
  | handlingSync
  | sleepingClosed
  | stopped
  deriving DecidableEq, Repr

/-- A worker as the coordinator sees it: its phase and its consumer field. -/
structure WorkerState where
  phase : WorkerPhase
  consumer : Option Nat
  deriving DecidableEq, Repr

/-- Buffer size of the done channel: make(chan bool) is unbuffered. -/
def doneChanBuffer : Nat := 0

/-- A worker can receive from its done channel only while blocked at the
select of its consume loop. -/
def canReceiveDone (w : WorkerState) : Bool :=
  w.phase = WorkerPhase.atSelect

/-- Whether the send handler.done <- true completes without blocking:
on an unbuffered channel it completes only by rendezvous with a worker
ready to receive. -/
def sendDoneCompletes (w : WorkerState) : Bool :=
  decide (0 < doneChanBuffer) || canReceiveDone w

/-- Trigger.Pause sends on the done channel of every worker,
unconditionally; it blocks on w when the send cannot complete. -/
def pauseBlocksOn (w : WorkerState) : Bool :=
  !sendDoneCompletes w

/-- Trigger.Stop sends on the done channel only of workers whose consumer
field is non-nil. -/
def stopSignalsWorker (w : WorkerState) : Bool :=
  w.consumer.isSome

/-- Trigger.Stop blocks on w when it signals w and the send cannot
complete. -/
def stopBlocksOn (w : WorkerState) : Bool :=
  stopSignalsWorker w && !sendDoneCompletes w

/-- Whether Trigger.Pause blocks on some worker of the trigger. -/
def pauseBlocks (ws : List WorkerState) : Bool :=
  ws.any pauseBlocksOn

/-- Whether Trigger.Stop blocks on some worker of the trigger. -/
def stopBlocks (ws : List WorkerState) : Bool :=
  ws.any stopBlocksOn

/-- Actions Trigger.Stop performs, in order: for each handler, when its
consumer is non-nil, send on its done channel then close the consumer. -/
inductive StopEv where
  | signalStop (i : Nat)
  | closeConsumer (i : Nat)
  deriving DecidableEq, Repr

/-- Stop's action list over the workers' consumer fields, numbering the
workers from k: a worker whose consumer is nil is skipped entirely. -/
def stopEventsFrom (k : Nat) : List (Option Nat) → List StopEv
  | [] => []
  | c :: cs =>
      (if c.isSome then [StopEv.signalStop k, StopEv.closeConsumer k] else []) ++
        stopEventsFrom (k + 1) cs

/-- Trigger.Stop's action list, workers numbered from 0. -/
def stopEvents (consumers : List (Option Nat)) : List StopEv :=
  stopEventsFrom 0 consumers

/-- Trigger.Stop's return value: always nil, whatever the workers' state. -/
def stopReturns (_consumers : List (Option Nat)) : Option String := none

/-- PulsarConnManager state relevant to Connect: the client handle and the
Connected flag (the ClientOpts are fixed; the lock serializes Connect). -/
structure ConnMgrState where
  client : Option Nat
  connected : Bool
  deriving DecidableEq, Repr

/-- PulsarConnManager.Connect under the exclusive lock: when not connected,
call pulsar.NewClient (here the parameter newClient); on error the client
field holds the nil result and the error is returned before the Connected
flag is written; otherwise the flag is set and nil is returned.  The third
component records whether pulsar.NewClient was called. -/
def connect (newClient : Except String Nat) (s : ConnMgrState) :
    Option String × ConnMgrState × Bool :=
  if s.connected then
    (none, { s with connected := true }, false)
  else
    match newClient with
    | Except.error e => (some e, { s with client := none }, true)
    | Except.ok c => (none, { client := some c, connected := true }, true)

/-- Producer compression codecs of the pulsar client. -/
inductive CompressionType where
  | noCompression
  | lz4
  | zlib
  | zstd
  deriving DecidableEq, Repr

/-- The slice of pulsar.ProducerOptions the publish activity constructs. -/
structure ProducerOptions where
  topic : String
  compressionType : CompressionType
  deriving DecidableEq, Repr

/-- The compressionType switch of the publish activity's New: LZ4, ZLIB and
ZSTD map to their codecs, any other string to NoCompression; an absent
setting leaves the field at its zero value, NoCompression. -/
def compressionOf (setting : Option String) : CompressionType :=
  match setting with
  | none => CompressionType.noCompression
  | some s =>
      if s = "LZ4" then CompressionType.lz4
      else if s = "ZLIB" then CompressionType.zlib
      else if s = "ZSTD" then CompressionType.zstd
      else CompressionType.noCompression

/-- Producer-options construction in the publish activity's New: a missing
topic fails construction; otherwise the options carry the topic and the
selected compression codec. -/
def newActivityOpts (topic : Option String) (compressionType : Option String) :
    Except String ProducerOptions :=
  match topic with
  | none => Except.error "no topic specified"
  | some t => Except.ok { topic := t, compressionType := compressionOf compressionType }

/-- engine.ValueRunnerTypePooled of the flogo engine. -/
def valueRunnerTypePooled : String := "POOLED"

/-- getMaxMessageCount from trigger.go: the engine's runner-worker count
when the runner type is Pooled, otherwise (Direct mode included) 200. -/
def getMaxMessageCount (runnerType : String) (runnerWorkers : Nat) : Nat :=
  if runnerType = valueRunnerTypePooled then runnerWorkers else 200

/-- Per-handler fields set by Trigger.Initialize that the claims concern:
the processing-mode flag and the in-flight maximum. -/
structure HandlerInit where
  asyncMode : Bool
  maxMsgCount : Nat
  deriving DecidableEq, Repr

/-- Trigger.Initialize over the configured handler processing modes: each
handler gets asyncMode from its ProcessingMode setting and maxMsgCount
from getMaxMessageCount. -/
def initHandlers (runnerType : String) (runnerWorkers : Nat)
    (modes : List String) : List HandlerInit :=
  modes.map fun mode =>
    { asyncMode := mode = "Async"
      maxMsgCount := getMaxMessageCount runnerType runnerWorkers }

/-- A raw-mode environment whose handler always succeeds with no result
attributes, used to exercise the theorems on concrete inputs. -/
def envRawOk : HandlerEnv :=
  { format := none
    jsonUnmarshal := fun _ => none
    handle := fun _ => Except.ok [] }

/-- A JSON-mode environment whose decoder rejects every payload. -/
def envJsonBad : HandlerEnv :=
  { format := some "JSON"
    jsonUnmarshal := fun _ => none
    handle := fun _ => Except.ok [] }

/-- A concrete sample message. -/
def msg0 : Msg :=
  { payload := "hello"
    properties := []
    topic := "persistent-topic"
    msgId := some [1, 171]
    redeliveryCount := 0 }

/-- The Output record handleMessage builds for msg0 in raw mode. -/
def out0 : Output :=
  { payload := GoVal.vStr "hello"
    properties := []
    topic := "persistent-topic"
    redeliveryCount := 0
    msgid := "01ab" }

/-- A GetSubscriber result sequence that fails twice and then succeeds. -/
def resultsW : Nat → Except String Nat :=
  fun i => if i < 2 then Except.error "broker unreachable" else Except.ok 7

/-- Claim C3: for every delivered message on which the downstream handler
is invoked, a handler success acknowledges the message unless the result
attributes carry the reserved " _nack" attribute as boolean true, in which
case it is negative-acknowledged; a handler error negative-acknowledges
unconditionally. -/
theorem ack_resolution (env : HandlerEnv) (msg : Msg) (out : Output)
    (hinv : (handleMessage env msg).1 = some out) :
    (∀ attrs, env.handle out = Except.ok attrs →
      (handleMessage env msg).2 =
        (if attrs.lookup nackAttrKey = some (GoVal.vBool true) then AckOutcome.nack
         else AckOutcome.ack)) ∧
    (∀ e, env.handle out = Except.error e →
      (handleMessage env msg).2 = AckOutcome.nack) := by
  cases hdec : decodePayload env msg with
  | none => simp [handleMessage, hdec] at hinv
  | some pv =>
      have hout : out = buildOutput msg pv := by
        have := hinv
        simp [handleMessage, hdec] at this
        exact this.symm
      have h2 : (handleMessage env msg).2 = resolveAck (env.handle out) := by
        simp [handleMessage, hdec, hout]
      constructor
      · intro attrs ha
        rw [h2, ha, resolveAck]
      · intro e he
        rw [h2, he, resolveAck]

/-- Witness for ack_resolution: on a concrete raw-mode message whose
handler succeeds without attributes, the consumer receives an Ack. -/
theorem ack_resolution_witness :
    (handleMessage envRawOk msg0).1 = some out0 ∧
    (handleMessage envRawOk msg0).2 = AckOutcome.ack := by
  have h := (ack_resolution envRawOk msg0 out0 rfl).1 [] rfl
  exact ⟨rfl, by simpa using h⟩

/-- Claim C4: a message delivered to a JSON-format subscription whose
payload fails to parse is negative-acknowledged and dropped, and the
downstream handler is never invoked for it. -/
theorem json_decode_failure_nacks (env : HandlerEnv) (msg : Msg)
    (hfmt : env.format = some "JSON")
    (hdec : env.jsonUnmarshal msg.payload = none) :
    handleMessage env msg = (none, AckOutcome.nack) := by
  simp [handleMessage, decodePayload, hfmt, hdec]

/-- Witness for json_decode_failure_nacks at a concrete message and
always-failing decoder. -/
theorem json_decode_failure_nacks_witness :
    handleMessage envJsonBad msg0 = (none, AckOutcome.nack) :=
  json_decode_failure_nacks envJsonBad msg0 rfl rfl

/-- Claim C5: Connect is idempotent: on an already-connected manager it
performs no client creation and returns success, twice in a row; on
client-creation failure it returns the underlying error and leaves the
connected flag false. -/
theorem connect_idempotent (newClient : Except String Nat) (s : ConnMgrState) :
    (s.connected = true →
      connect newClient s = (none, s, false) ∧
      connect newClient (connect newClient s).2.1 = (none, s, false)) ∧
    (∀ e, newClient = Except.error e → s.connected = false →
      (connect newClient s).1 = some e ∧
      (connect newClient s).2.1.connected = false) := by
  refine ⟨fun hc => ?_, fun e he hnc => ?_⟩
  · have hs : ({ s with connected := true } : ConnMgrState) = s := by
      cases s; simp_all
    have h1 : connect newClient s = (none, s, false) := by
      simp [connect, hc, hs]
    exact ⟨h1, by rw [h1]; exact h1⟩
  · subst he
    simp [connect, hnc]

/-- Witness for connect_idempotent: a connected manager stays untouched
through two Connect calls; a failing creation surfaces the error with the
flag still false. -/
theorem connect_idempotent_witness :
    (connect (Except.ok 7) ⟨some 3, true⟩ = (none, ⟨some 3, true⟩, false) ∧
      connect (Except.ok 7) (connect (Except.ok 7) ⟨some 3, true⟩).2.1 =
        (none, ⟨some 3, true⟩, false)) ∧
    ((connect (Except.error "auth rejected") ⟨none, false⟩).1 = some "auth rejected" ∧
      (connect (Except.error "auth rejected") ⟨none, false⟩).2.1.connected = false) :=
  ⟨(connect_idempotent (Except.ok 7) ⟨some 3, true⟩).1 rfl,
    (connect_idempotent (Except.error "auth rejected") ⟨none, false⟩).2
      "auth rejected" rfl rfl⟩

/-- Claim C7: while GetSubscriber keeps failing the worker stays in its
retry loop with a fixed 60-second backoff per attempt, for every number of
attempts (no maximum retry count, never fatal), and the loop exits exactly
when an attempt succeeds, storing the obtained consumer. -/
theorem retry_indefinitely (results : Nat → Except String Nat) (k : Nat)
    (hfail : ∀ i, i < k → ∃ e, results i = Except.error e) :
    (connectRun results k).consumer = none ∧
    (connectRun results k).attempts = k ∧
    (connectRun results k).sleptSeconds = retryBackoffSeconds * k ∧
    (∀ c, results k = Except.ok c →
      (connectRun results (k + 1)).consumer = some c) := by
  induction k with
  | zero =>
      refine ⟨rfl, rfl, rfl, fun c hc => ?_⟩
      show (connectAttempt (results 0) (connectRun results 0)).consumer = some c
      rw [hc]
      simp [connectAttempt, connectRun]
  | succ n ih =>
      have ihn := ih fun i hi => hfail i (Nat.lt_succ_of_lt hi)
      obtain ⟨e, he⟩ := hfail n (Nat.lt_succ_self n)
      have hstep : connectRun results (n + 1) =
          { consumer := none, attempts := n + 1
            sleptSeconds := retryBackoffSeconds * (n + 1) } := by
        show connectAttempt (results n) (connectRun results n) = _
        rw [he]
        simp [connectAttempt, ihn.1, ihn.2.1, ihn.2.2.1, Nat.mul_succ]
      refine ⟨by rw [hstep], by rw [hstep], by rw [hstep], fun c hc => ?_⟩
      show (connectAttempt (results (n + 1)) (connectRun results (n + 1))).consumer = some c
      rw [hstep, hc]
      simp [connectAttempt]

/-- Witness for retry_indefinitely: two failures back the worker off for
120 seconds with no consumer, and the third, successful attempt ends the
loop with the obtained consumer. -/
theorem retry_indefinitely_witness :
    (connectRun resultsW 2).consumer = none ∧
    (connectRun resultsW 2).sleptSeconds = retryBackoffSeconds * 2 ∧
    (connectRun resultsW 3).consumer = some 7 := by
  have h := retry_indefinitely resultsW 2 fun i hi =>
    ⟨"broker unreachable", by interval_cases i <;> rfl⟩
  exact ⟨h.1, h.2.2.1, h.2.2.2 7 rfl⟩

/-- Claim C9: every compression-type string outside LZ4, ZLIB and ZSTD
makes the publish activity construct successfully with the NoCompression
codec in its producer options. -/
theorem unrecognized_compression_defaults (t s : String)
    (h1 : s ≠ "LZ4") (h2 : s ≠ "ZLIB") (h3 : s ≠ "ZSTD") :
    newActivityOpts (some t) (some s) =
      Except.ok { topic := t, compressionType := CompressionType.noCompression } := by
  simp [newActivityOpts, compressionOf, h1, h2, h3]

/-- Witness for unrecognized_compression_defaults at the unrecognized
string SNAPPY. -/
theorem unrecognized_compression_defaults_witness :
    newActivityOpts (some "orders") (some "SNAPPY") =
      Except.ok { topic := "orders", compressionType := CompressionType.noCompression } :=
  unrecognized_compression_defaults "orders" "SNAPPY" (by decide) (by decide) (by decide)

/-- Claim C10: every handler built by Trigger.Initialize has its in-flight
maximum fixed at initialization: the engine's runner-worker count under the
Pooled runner type, and 200 under any other runner type. -/
theorem max_inflight_initialization (runnerType : String) (runnerWorkers : Nat)
    (modes : List String) (h : HandlerInit)
    (hmem : h ∈ initHandlers runnerType runnerWorkers modes) :
    (runnerType = valueRunnerTypePooled → h.maxMsgCount = runnerWorkers) ∧
    (runnerType ≠ valueRunnerTypePooled → h.maxMsgCount = 200) := by
  obtain ⟨mode, -, rfl⟩ := List.mem_map.mp hmem
  constructor
  · intro hp
    simp [getMaxMessageCount, hp]
  · intro hp
    simp [getMaxMessageCount, hp]

/-- Witness for max_inflight_initialization: a pooled engine with 5 runner
workers gives maximum 5; a direct engine gives 200. -/
theorem max_inflight_initialization_witness :
    (⟨true, 5⟩ : HandlerInit) ∈ initHandlers "POOLED" 5 ["Async"] ∧
    (⟨true, 5⟩ : HandlerInit).maxMsgCount = 5 ∧
    (⟨false, 200⟩ : HandlerInit).maxMsgCount = 200 :=
  ⟨by decide,
    (max_inflight_initialization "POOLED" 5 ["Async"] ⟨true, 5⟩ (by decide)).1 rfl,
    (max_inflight_initialization "DIRECT" 7 ["Sync"] ⟨false, 200⟩ (by decide)).2
      (by decide)⟩

/-- Every event of one message's handling block carries that message's
number. -/
theorem tag_msgEvents (env : HandlerEnv) (k : Nat) (m : Msg) (e : Ev)
    (he : e ∈ msgEvents env k m) : e.tag = k := by
  cases h : handleMessage env m with
  | mk o a =>
      rw [msgEvents, h] at he
      cases o with
      | none =>
          cases a with
          | ack =>
              simp at he
              subst he
              rfl
          | nack =>
              simp at he
              subst he
              rfl
      | some out =>
          cases a with
          | ack =>
              simp at he
              rcases he with rfl | rfl <;> rfl
          | nack =>
              simp at he
              rcases he with rfl | rfl <;> rfl

/-- Events of the sync consume loop started at number k are tagged within
the processed range. -/
theorem tag_mem_syncConsumeFrom (env : HandlerEnv) (ms : List Msg) (k : Nat) (e : Ev)
    (he : e ∈ syncConsumeFrom env k ms) : k ≤ e.tag ∧ e.tag < k + ms.length := by
  induction ms generalizing k with
  | nil => simp [syncConsumeFrom] at he
  | cons m ms ih =>
      rw [syncConsumeFrom] at he
      rcases List.mem_append.mp he with hl | hr
      · have htag : e.tag = k := by
          rcases List.mem_cons.mp hl with rfl | hl2
          · rfl
          · exact tag_msgEvents env k m e hl2
        rw [htag]
        simp only [List.length_cons]
        omega
      · have := ih (k + 1) hr
        simp only [List.length_cons]
        omega

/-- Each message's handling block ends in its ack or its nack. -/
theorem ackNack_mem_msgEvents (env : HandlerEnv) (k : Nat) (m : Msg) :
    Ev.ackOf k ∈ msgEvents env k m ∨ Ev.nackOf k ∈ msgEvents env k m := by
  cases h : handleMessage env m with
  | mk o a => cases o <;> cases a <;> simp [msgEvents, h]

/-- The sync trace of a processed message contains its ack or its nack. -/
theorem ackNack_mem_syncConsumeFrom (env : HandlerEnv) (ms : List Msg) (k j : Nat)
    (hj : j < ms.length) :
    Ev.ackOf (k + j) ∈ syncConsumeFrom env k ms ∨
    Ev.nackOf (k + j) ∈ syncConsumeFrom env k ms := by
  induction ms generalizing k j with
  | nil => simp at hj
  | cons m ms ih =>
      cases j with
      | zero =>
          rw [syncConsumeFrom]
          rcases ackNack_mem_msgEvents env k m with h | h
          · left
            simp only [Nat.add_zero]
            exact List.mem_append_left _ (List.mem_cons_of_mem _ h)
          · right
            simp only [Nat.add_zero]
            exact List.mem_append_left _ (List.mem_cons_of_mem _ h)
      | succ j =>
          have heq : k + (j + 1) = (k + 1) + j := by omega
          rw [syncConsumeFrom, heq]
          rcases ih (k + 1) j (by simpa using hj) with h | h
          · exact Or.inl (List.mem_append_right _ h)
          · exact Or.inr (List.mem_append_right _ h)

/-- The sync trace of a split message list is the corresponding split of
traces, with the numbering shifted by the first part's length. -/
theorem syncConsumeFrom_append (env : HandlerEnv) (ms1 ms2 : List Msg) (k : Nat) :
    syncConsumeFrom env k (ms1 ++ ms2) =
      syncConsumeFrom env k ms1 ++ syncConsumeFrom env (k + ms1.length) ms2 := by
  induction ms1 generalizing k with
  | nil => simp [syncConsumeFrom]
  | cons m ms ih =>
      rw [List.cons_append, syncConsumeFrom, syncConsumeFrom, ih (k + 1), List.length_cons]
      have heq : k + 1 + ms.length = k + (ms.length + 1) := by omega
      rw [heq, List.append_assoc]

/-- Splitting a list at an occurrence of x that avoids a known prefix P
keeps all of P inside the part before x. -/
theorem mem_left_of_eq_append {α : Type} (P S A B : List α) (x e : α)
    (h : P ++ S = A ++ x :: B) (hx : x ∉ P) (he : e ∈ P) : e ∈ A := by
  rcases List.append_eq_append_iff.mp h with ⟨t, ht1, _⟩ | ⟨t, ht1, ht2⟩
  · subst ht1
    exact List.mem_append_left _ he
  · cases t with
    | nil =>
        rw [List.append_nil] at ht1
        subst ht1
        exact he
    | cons y t =>
        exfalso
        apply hx
        have hy : y = x := by
          have := ht2.symm
          rw [List.cons_append] at this
          exact (List.cons.injEq _ _ _ _ ▸ this) |>.1.symm ▸ rfl
        rw [ht1, hy]
        exact List.mem_append_right _ (List.mem_cons_self _ _)

/-- Claim C2: in Sync processing mode messages are handled inline in
delivery order: wherever the consume-loop trace dispitches message n+1 to
the downstream handler, the ack or nack of message n has already been
issued earlier in the trace. -/
theorem sync_dispatch_after_ack (env : HandlerEnv) (msgs : List Msg) (n : Nat)
    (A B : List Ev)
    (hsplit : syncConsume env msgs = A ++ Ev.dispatch (n + 1) :: B) :
    Ev.ackOf n ∈ A ∨ Ev.nackOf n ∈ A := by
  have hmem : Ev.dispatch (n + 1) ∈ syncConsume env msgs := by
    rw [hsplit]
    exact List.mem_append_right _ (List.mem_cons_self _ _)
  have hlen : n + 1 < msgs.length := by
    have := (tag_mem_syncConsumeFrom env msgs 0 _ hmem).2
    simpa [Ev.tag] using this
  have htk : (msgs.take (n + 1)).length = n + 1 := by
    rw [List.length_take]
    omega
  have hsp : syncConsume env msgs =
      syncConsumeFrom env 0 (msgs.take (n + 1)) ++
        syncConsumeFrom env (n + 1) (msgs.drop (n + 1)) := by
    conv_lhs => rw [syncConsume, (List.take_append_drop (n + 1) msgs).symm]
    rw [syncConsumeFrom_append, htk]
    simp [syncConsume]
  have hnot : Ev.dispatch (n + 1) ∉ syncConsumeFrom env 0 (msgs.take (n + 1)) := by
    intro hmem2
    have := (tag_mem_syncConsumeFrom env _ 0 _ hmem2).2
    rw [htk] at this
    simp [Ev.tag] at this
  have hin : Ev.ackOf n ∈ syncConsumeFrom env 0 (msgs.take (n + 1)) ∨
      Ev.nackOf n ∈ syncConsumeFrom env 0 (msgs.take (n + 1)) := by
    have := ackNack_mem_syncConsumeFrom env (msgs.take (n + 1)) 0 n (by omega)
    simpa using this
  have hkey : syncConsumeFrom env 0 (msgs.take (n + 1)) ++
      syncConsumeFrom env (n + 1) (msgs.drop (n + 1)) = A ++ Ev.dispatch (n + 1) :: B :=
    hsp.symm.trans hsplit
  rcases hin with h | h
  · exact Or.inl (mem_left_of_eq_append _ _ _ _ _ _ hkey hnot h)
  · exact Or.inr (mem_left_of_eq_append _ _ _ _ _ _ hkey hnot h)

/-- Witness for sync_dispatch_after_ack: on a concrete two-message sync
run the prefix before the dispatch of message 1 holds the ack of
message 0. -/
theorem sync_dispatch_after_ack_witness :
    Ev.ackOf 0 ∈ [Ev.pull 0, Ev.dispatch 0, Ev.ackOf 0, Ev.pull 1] ∨
    Ev.nackOf 0 ∈ [Ev.pull 0, Ev.dispatch 0, Ev.ackOf 0, Ev.pull 1] :=
  sync_dispatch_after_ack envRawOk [msg0, msg0] 0
    [Ev.pull 0, Ev.dispatch 0, Ev.ackOf 0, Ev.pull 1] [Ev.ackOf 1] rfl

/-- Claim C6 fails on the code: the done channel is unbuffered, so the
sends in Trigger.Stop and Trigger.Pause are blocking rendezvous; at the
explicit states below, Pause blocks on a worker still in its connecting
retry loop and Stop blocks on a connected worker that is inline in a
sync-mode handleMessage call. -/
theorem stop_pause_blocking_counterexample :
    pauseBlocks [⟨WorkerPhase.connecting, none⟩] = true ∧
    stopBlocks [⟨WorkerPhase.handlingSync, some 0⟩] = true := by
  decide

/-- Claim C6 amended: the stop request is delivered by a blocking send on
the unbuffered done channel, completing only by rendezvous: Pause, which
signals every worker, does not block exactly when every worker sits at the
select of its consume loop, and Stop, which signals only workers holding a
consumer, does not block exactly when every such worker sits at its
select. -/
theorem stop_pause_rendezvous (ws : List WorkerState) :
    (pauseBlocks ws = false ↔ ∀ w ∈ ws, w.phase = WorkerPhase.atSelect) ∧
    (stopBlocks ws = false ↔
      ∀ w ∈ ws, w.consumer.isSome = true → w.phase = WorkerPhase.atSelect) := by
  constructor
  · rw [pauseBlocks, List.any_eq_false]
    constructor
    · intro h w hw
      have := h w hw
      simpa [pauseBlocksOn, sendDoneCompletes, canReceiveDone, doneChanBuffer] using this
    · intro h w hw
      simp [pauseBlocksOn, sendDoneCompletes, canReceiveDone, doneChanBuffer, h w hw]
  · rw [stopBlocks, List.any_eq_false]
    constructor
    · intro h w hw hc
      have := h w hw
      simpa [stopBlocksOn, stopSignalsWorker, sendDoneCompletes, canReceiveDone,
        doneChanBuffer, hc] using this
    · intro h w hw
      by_cases hc : w.consumer.isSome = true
      · simp [stopBlocksOn, stopSignalsWorker, sendDoneCompletes, canReceiveDone,
          doneChanBuffer, hc, h w hw hc]
      · simp [stopBlocksOn, stopSignalsWorker, hc]

/-- Claim C8 fails on the code as stated: Trigger.Stop does not signal a
worker whose consumer is nil at all, as stopping a one-worker trigger whose
worker never connected performs no action, though it indeed causes no
failure. -/
theorem stop_skips_unconnected_counterexample :
    stopEvents [none] = [] ∧
    StopEv.signalStop 0 ∉ stopEvents [none] ∧
    stopReturns [none] = none := by
  decide

/-- Membership of a stop signal in Stop's action list, relative to the
numbering offset. -/
theorem signal_mem_stopEventsFrom (cs : List (Option Nat)) (k i : Nat) :
    StopEv.signalStop i ∈ stopEventsFrom k cs ↔
      ∃ j c, i = k + j ∧ cs.get? j = some (some c) := by
  induction cs generalizing k with
  | nil => simp [stopEventsFrom]
  | cons c cs ih =>
      rw [stopEventsFrom]
      constructor
      · intro hm
        rcases List.mem_append.mp hm with hl | hr
        · cases c with
          | none => simp at hl
          | some cv =>
              simp at hl
              exact ⟨0, cv, by omega, by simp [hl]⟩
        · obtain ⟨j, cv, hij, hget⟩ := (ih (k + 1)).mp hr
          exact ⟨j + 1, cv, by omega, by simpa using hget⟩
      · rintro ⟨j, cv, rfl, hget⟩
        cases j with
        | zero =>
            rw [List.get?_cons_zero] at hget
            have hc : c = some cv := by injection hget
            subst hc
            apply List.mem_append_left
            simp
        | succ j =>
            apply List.mem_append_right
            exact (ih (k + 1)).mpr ⟨j, cv, by omega, by simpa using hget⟩

/-- Membership of a consumer close in Stop's action list, relative to the
numbering offset. -/
theorem close_mem_stopEventsFrom (cs : List (Option Nat)) (k i : Nat) :
    StopEv.closeConsumer i ∈ stopEventsFrom k cs ↔
      ∃ j c, i = k + j ∧ cs.get? j = some (some c) := by
  induction cs generalizing k with
  | nil => simp [stopEventsFrom]
  | cons c cs ih =>
      rw [stopEventsFrom]
      constructor
      · intro hm
        rcases List.mem_append.mp hm with hl | hr
        · cases c with
          | none => simp at hl
          | some cv =>
              simp at hl
              exact ⟨0, cv, by omega, by simp [hl]⟩
        · obtain ⟨j, cv, hij, hget⟩ := (ih (k + 1)).mp hr
          exact ⟨j + 1, cv, by omega, by simpa using hget⟩
      · rintro ⟨j, cv, rfl, hget⟩
        cases j with
        | zero =>
            rw [List.get?_cons_zero] at hget
            have hc : c = some cv := by injection hget
            subst hc
            apply List.mem_append_left
            simp
        | succ j =>
            apply List.mem_append_right
            exact (ih (k + 1)).mpr ⟨j, cv, by omega, by simpa using hget⟩

/-- Claim C8 amended: Trigger.Stop signals to stop exactly those workers
whose consumer is present and closes exactly those consumers; a worker
with no consumer is skipped entirely, and Stop returns nil regardless, so
stopping never-connected workers causes no failure. -/
theorem stop_signals_connected_only (cs : List (Option Nat)) (i : Nat) :
    (StopEv.signalStop i ∈ stopEvents cs ↔ ∃ c, cs.get? i = some (some c)) ∧
    (StopEv.closeConsumer i ∈ stopEvents cs ↔ ∃ c, cs.get? i = some (some c)) ∧
    stopReturns cs = none := by
  refine ⟨?_, ?_, rfl⟩
  · rw [stopEvents, signal_mem_stopEventsFrom]
    constructor
    · rintro ⟨j, c, rfl, hget⟩
      exact ⟨c, by simpa using hget⟩
    · rintro ⟨c, hget⟩
      exact ⟨i, c, by omega, hget⟩
  · rw [stopEvents, close_mem_stopEventsFrom]
    constructor
    · rintro ⟨j, c, rfl, hget⟩
      exact ⟨c, by simpa using hget⟩
    · rintro ⟨c, hget⟩
      exact ⟨i, c, by omega, hget⟩

/-- With maxMsgCount 1, one message dispatched and its handler racing its
deferred decrement past wg.Wait and the counter reset, the loop returns to
its select with currentMsgCount at minus one. -/
theorem reach_counter_negative :
    AsyncReach 1 asyncInit ⟨LoopPc.select, -1, 0, [], 1⟩ := by
  have s1 : AsyncStep 1 ⟨LoopPc.select, 0, 0, [], 0⟩ ⟨LoopPc.add, 0, 0, [], 1⟩ :=
    AsyncStep.pull 0 0 [] 0
  have s2 : AsyncStep 1 ⟨LoopPc.add, 0, 0, [], 1⟩ ⟨LoopPc.inc, 0, 1, [], 1⟩ :=
    AsyncStep.wgAdd 0 0 [] 1
  have s3 : AsyncStep 1 ⟨LoopPc.inc, 0, 1, [], 1⟩ ⟨LoopPc.spawn, 1, 1, [], 1⟩ :=
    AsyncStep.incCount 0 1 [] 1
  have s4 : AsyncStep 1 ⟨LoopPc.spawn, 1, 1, [], 1⟩
      ⟨LoopPc.check, 1, 1, [TaskPc.running], 1⟩ :=
    AsyncStep.spawnTask 1 1 [] 1
  have s5 : AsyncStep 1 ⟨LoopPc.check, 1, 1, [TaskPc.running], 1⟩
      ⟨LoopPc.wait, 1, 1, [TaskPc.running], 1⟩ :=
    AsyncStep.checkHigh 1 1 [TaskPc.running] 1 (by norm_num)
  have s6 : AsyncStep 1 ⟨LoopPc.wait, 1, 1, [TaskPc.running], 1⟩
      ⟨LoopPc.wait, 1, 0, [TaskPc.afterDone], 1⟩ :=
    AsyncStep.taskDone LoopPc.wait 1 0 [] [] 1
  have s7 : AsyncStep 1 ⟨LoopPc.wait, 1, 0, [TaskPc.afterDone], 1⟩
      ⟨LoopPc.reset, 1, 0, [TaskPc.afterDone], 1⟩ :=
    AsyncStep.wgWait 1 [TaskPc.afterDone] 1
  have s8 : AsyncStep 1 ⟨LoopPc.reset, 1, 0, [TaskPc.afterDone], 1⟩
      ⟨LoopPc.select, 0, 0, [TaskPc.afterDone], 1⟩ :=
    AsyncStep.resetCount 1 0 [TaskPc.afterDone] 1
  have s9 : AsyncStep 1 ⟨LoopPc.select, 0, 0, [TaskPc.afterDone], 1⟩
      ⟨LoopPc.select, -1, 0, [], 1⟩ :=
    AsyncStep.taskDec LoopPc.select 0 0 [] [] 1
  exact Relation.ReflTransGen.head s1 (Relation.ReflTransGen.head s2
    (Relation.ReflTransGen.head s3 (Relation.ReflTransGen.head s4
      (Relation.ReflTransGen.head s5 (Relation.ReflTransGen.head s6
        (Relation.ReflTransGen.head s7 (Relation.ReflTransGen.head s8
          (Relation.ReflTransGen.single s9))))))))

/-- Continuing from the negative-counter state, the worker admits two
further messages while only ever observing currentMsgCount below the
maximum, ending with two handler goroutines running concurrently although
maxMsgCount is 1. -/
theorem reach_two_running :
    AsyncReach 1 asyncInit ⟨LoopPc.check, 1, 2, [TaskPc.running, TaskPc.running], 3⟩ := by
  have t1 : AsyncStep 1 ⟨LoopPc.select, -1, 0, [], 1⟩ ⟨LoopPc.add, -1, 0, [], 2⟩ :=
    AsyncStep.pull (-1) 0 [] 1
  have t2 : AsyncStep 1 ⟨LoopPc.add, -1, 0, [], 2⟩ ⟨LoopPc.inc, -1, 1, [], 2⟩ :=
    AsyncStep.wgAdd (-1) 0 [] 2
  have t3 : AsyncStep 1 ⟨LoopPc.inc, -1, 1, [], 2⟩ ⟨LoopPc.spawn, 0, 1, [], 2⟩ :=
    AsyncStep.incCount (-1) 1 [] 2
  have t4 : AsyncStep 1 ⟨LoopPc.spawn, 0, 1, [], 2⟩
      ⟨LoopPc.check, 0, 1, [TaskPc.running], 2⟩ :=
    AsyncStep.spawnTask 0 1 [] 2
  have t5 : AsyncStep 1 ⟨LoopPc.check, 0, 1, [TaskPc.running], 2⟩
      ⟨LoopPc.select, 0, 1, [TaskPc.running], 2⟩ :=
    AsyncStep.checkLow 0 1 [TaskPc.running] 2 (by norm_num)
  have t6 : AsyncStep 1 ⟨LoopPc.select, 0, 1, [TaskPc.running], 2⟩
      ⟨LoopPc.add, 0, 1, [TaskPc.running], 3⟩ :=
    AsyncStep.pull 0 1 [TaskPc.running] 2
  have t7 : AsyncStep 1 ⟨LoopPc.add, 0, 1, [TaskPc.running], 3⟩
      ⟨LoopPc.inc, 0, 2, [TaskPc.running], 3⟩ :=
    AsyncStep.wgAdd 0 1 [TaskPc.running] 3
  have t8 : AsyncStep 1 ⟨LoopPc.inc, 0, 2, [TaskPc.running], 3⟩
      ⟨LoopPc.spawn, 1, 2, [TaskPc.running], 3⟩ :=
    AsyncStep.incCount 0 2 [TaskPc.running] 3
  have t9 : AsyncStep 1 ⟨LoopPc.spawn, 1, 2, [TaskPc.running], 3⟩
      ⟨LoopPc.check, 1, 2, [TaskPc.running, TaskPc.running], 3⟩ :=
    AsyncStep.spawnTask 1 2 [TaskPc.running] 3
  exact Relation.ReflTransGen.trans reach_counter_negative
    (Relation.ReflTransGen.head t1 (Relation.ReflTransGen.head t2
      (Relation.ReflTransGen.head t3 (Relation.ReflTransGen.head t4
        (Relation.ReflTransGen.head t5 (Relation.ReflTransGen.head t6
          (Relation.ReflTransGen.head t7 (Relation.ReflTransGen.head t8
            (Relation.ReflTransGen.single t9)))))))))

/-- Claim C1 fails on the code: because the deferred function of
handleMessage calls wg.Done() before decrementing currentMsgCount, a
worker with maxMsgCount 1 can reach, under a sequentially consistent
interleaving, a state where the window has drained, the loop is back at
its select, yet the counter reads minus one rather than zero; the very
next receive happens from that state, and continuing, two handler
goroutines run concurrently although the configured maximum is 1. -/
theorem async_window_drain_race :
    AsyncReach 1 asyncInit ⟨LoopPc.select, -1, 0, [], 1⟩ ∧
    AsyncStep 1 ⟨LoopPc.select, -1, 0, [], 1⟩ ⟨LoopPc.add, -1, 0, [], 2⟩ ∧
    AsyncReach 1 asyncInit ⟨LoopPc.check, 1, 2, [TaskPc.running, TaskPc.running], 3⟩ ∧
    inFlight ⟨LoopPc.check, 1, 2, [TaskPc.running, TaskPc.running], 3⟩ = 2 :=
  ⟨reach_counter_negative, AsyncStep.pull (-1) 0 [] 1, reach_two_running, rfl⟩

end PulsarContrib
